import Mathlib

/-!
Shallow embedding of the `NeuralNetwork` action classifier
(src/parsing/classifiers/nn/neural_network.py) and of the paragraph-breaking
utility (src/ucca/textutil.py), together with theorems checking the
specification claims about them.

Conventions of the embedding:
* Python ordered dictionaries become association lists (`List (key × value)`),
  which preserve insertion order exactly as `OrderedDict` does.
* Numeric weight tensors are opaque to every claim, so a tensor is embedded as
  a flat `List Int` of its values; no claim depends on floating-point rounding.
* Fallible steps return the raised error explicitly; a Python `assert` failure
  or uncaught exception is an error value, and an exception that the source
  catches and merely prints is *not* an error value (that distinction is
  exactly what several claims are about).
* Leading underscores of Python attribute names (`_params`, `_layers`, ...)
  are dropped, since Lean reserves identifiers starting with an underscore.
-/

/-- Feature type information stored in `self._input_params`: a cardinality
`num` and an embedding dimension `dim` (the spec calls these cardinality and
dimension). -/
structure FeatureInformation where
  num : Nat
  dim : Nat
deriving DecidableEq, Repr

/-- A weight tensor, flattened to its list of numeric values.  All claims
treat tensor contents as opaque data, so the element type is immaterial. -/
abbrev Tensor := List Int

/-- State of a `NeuralNetwork` classifier, mirroring the attributes set in
`NeuralNetwork.__init__` (src/parsing/classifiers/nn/neural_network.py lines
41-81) plus the `labels` / `is_frozen` attributes inherited from the base
`Classifier`.  The string-keyed dispatch choices (activation, initializer,
optimizer, loss) and the transient fields `normalize`, `minibatch_size`,
`nb_epochs`, `dropout`, `filename` play no role in any claim and are omitted;
`params` is the `OrderedDict` `self._params` as an association list. -/
structure NeuralNetwork where
  model_type : String
  labels : List String
  is_frozen : Bool
  input_params : List (String × FeatureInformation)
  params : List (String × Tensor)
  layers : Nat
  layer_dim : Nat
  max_num_labels : Nat
  batch_size : Nat
  item_index : Nat
  iteration : Nat
deriving DecidableEq, Repr

/-- Source (line 88): `sum(f.num * f.dim for f in self._input_params.values())`.
The Python builtin `sum` is a left fold starting from `0`. -/
def input_dim (nn : NeuralNetwork) : Nat :=
  nn.input_params.foldl (fun acc f => acc + f.2.num * f.2.dim) 0

/-- Spec-side formula for the input width, written from the words of the spec
(section 3): total input width = Σ(cardinality × dimension) over all entries
of the feature schema.  Kept separate from `input_dim` so the claim that the
two agree is a real comparison. -/
def spec_input_width (schema : List (String × FeatureInformation)) : Nat :=
  (schema.map (fun e => e.2.num * e.2.dim)).sum

lemma foldl_add_mul_eq_sum (g : String × FeatureInformation → Nat)
    (l : List (String × FeatureInformation)) (n : Nat) :
    l.foldl (fun acc f => acc + g f) n = n + (l.map g).sum := by
  induction l generalizing n with
  | nil => simp
  | cons x xs ih =>
      simp [List.foldl_cons, List.map_cons, List.sum_cons, ih, Nat.add_assoc]

/-- C7: for every feature schema, the cached `input_dim` of the classifier
equals the sum over all schema entries of cardinality × dimension. -/
theorem input_dim_eq_schema_sum (nn : NeuralNetwork) :
    input_dim nn = spec_input_width nn.input_params := by
  unfold input_dim spec_input_width
  simpa using foldl_add_mul_eq_sum (fun f => f.2.num * f.2.dim) nn.input_params 0

/-- The persisted metadata artifact: the dictionary written by `save`
(source lines 99-107) and read back by `load` via `load_dict` (line 124).
Field names follow the keys of the Python dict. -/
structure Metadata where
  type : String
  labels : List String
  is_frozen : Bool
  input_params : List (String × FeatureInformation)
  param_keys : List String
  layers : Nat
  layer_dim : Nat
deriving DecidableEq, Repr

/-- Errors that the persistence and capacity code can raise.  The first two
carry the names the spec gives them (the source raises them as bare
`AssertionError`s); the rest are the concrete Python exceptions of the
source. -/
inductive ClsError where
  /-- Spec name for the failed `assert model_type == self.model_type`
  (source line 126). -/
  | ModelTypeMismatch
  /-- Spec name for the failed capacity assertion / capacity check. -/
  | CapacityExceeded
  /-- Spec name for a key/value count or shape mismatch at load time. -/
  | CorruptModel
  /-- Python ValueError raised by `zip(*self._params.items())` when
  `self._params` is empty (source line 98): two names cannot be unpacked
  from an empty zip. -/
  | UnpackEmptyParams
  /-- Python NameError raised at source line 142 when `param_values` was
  never bound because `self.model.load` raised a KeyError that the
  `except` clause at line 140 swallowed. -/
  | UnboundParamValues
deriving DecidableEq, Repr

/-- Externally observable effects of `save`, in the order the source performs
them: write the metadata dict to `filename` (`save_dict`, line 108), call
`self.init_model()` (line 109) which materializes the underlying model, and
write the ordered parameter values to `filename + ".model"` (line 114). -/
inductive SaveEvent where
  | writeMetadata (d : Metadata)
  | materialize
  | writeWeights (vs : List Tensor)
deriving DecidableEq, Repr

/-- The metadata dict built by `save` (source lines 99-107): `param_keys` is
the first component of `zip(*self._params.items())`, i.e. the keys of the
ordered dict in order. -/
def save_metadata (nn : NeuralNetwork) : Metadata :=
  { type := nn.model_type
    labels := nn.labels
    is_frozen := nn.is_frozen
    input_params := nn.input_params
    param_keys := nn.params.map Prod.fst
    layers := nn.layers
    layer_dim := nn.layer_dim }

/-- The ordered parameter values passed to `self.model.save` (source line
114): the second component of `zip(*self._params.items())`. -/
def save_param_values (nn : NeuralNetwork) : List Tensor :=
  nn.params.map Prod.snd

/-- Embedding of `NeuralNetwork.save` (source lines 93-117).  The argument
`weightWriteFails` says whether `self.model.save` raises a `ValueError`.
Behaviour of the source, step by step:
* line 98 `param_keys, param_values = zip(*self._params.items())` raises an
  uncaught ValueError when `self._params` is empty (nothing to unpack), so
  save aborts before writing anything;
* otherwise the metadata dict is written (line 108), `init_model` is called
  only afterwards (line 109), and the weights blob write is attempted;
* a ValueError from the weights write is caught at line 116 and only printed:
  save still returns normally (error component `none`).
Returns the list of effects performed, in order, and the error save raises
(or `none` when it returns normally). -/
def save (nn : NeuralNetwork) (weightWriteFails : Bool) :
    List SaveEvent × Option ClsError :=
  match nn.params with
  | [] => ([], some ClsError.UnpackEmptyParams)
  | _ :: _ =>
      if weightWriteFails then
        ([SaveEvent.writeMetadata (save_metadata nn), SaveEvent.materialize], none)
      else
        ([SaveEvent.writeMetadata (save_metadata nn), SaveEvent.materialize,
          SaveEvent.writeWeights (save_param_values nn)], none)

/-- Embedding of `NeuralNetwork.load` (source lines 119-142) acting on the
classifier `nn`, given the metadata dict `d` read by `load_dict` and the
outcome `weightsRead` of `self.model.load` (`Except.error ()` stands for the
KeyError that the `except` clause at line 140 catches).  Source, step by step:
* line 126 asserts the stored type equals `self.model_type`; on mismatch the
  call aborts with the state untouched and no weight values are ever read;
* lines 127-132 overwrite `labels`, `is_frozen`, `_input_params`, `_layers`,
  `_layer_dim` from the metadata, then `init_model` runs (line 133);
* the weights read is attempted; a KeyError is caught and printed, leaving
  `param_values` unbound, so line 142 then raises a NameError with `_params`
  still holding its old value;
* on a successful read, line 142 sets `_params` to
  `OrderedDict(zip(param_keys, param_values))`; Python `zip` silently
  truncates to the shorter of the two lists, exactly as `List.zip` does.
Returns the final classifier state and the error load raises (or `none`). -/
def load (nn : NeuralNetwork) (d : Metadata) (weightsRead : Except Unit (List Tensor)) :
    NeuralNetwork × Option ClsError :=
  if d.type ≠ nn.model_type then
    (nn, some ClsError.ModelTypeMismatch)
  else
    let nn1 : NeuralNetwork :=
      { nn with
        labels := d.labels
        is_frozen := d.is_frozen
        input_params := d.input_params
        layers := d.layers
        layer_dim := d.layer_dim }
    match weightsRead with
    | Except.error _ => (nn1, some ClsError.UnboundParamValues)
    | Except.ok param_values =>
        ({ nn1 with params := d.param_keys.zip param_values }, none)

/-- The `num_labels` property inherited from the base `Classifier`: the
number of labels currently in the (append-only) label list. -/
def num_labels (nn : NeuralNetwork) : Nat :=
  nn.labels.length

/-- Embedding of `NeuralNetwork.resize` (source lines 90-91):
`assert self.num_labels <= self.max_num_labels`.  Returns `none` exactly when
the assertion fires (an AssertionError: the fatal capacity overflow). -/
def resize (nn : NeuralNetwork) : Option Unit :=
  if num_labels nn ≤ nn.max_num_labels then some () else none

/-- Modelled from the spec: `add_label` lives in the base `Classifier` class,
which is not among the sources; per spec section 4.1 it appends the name to
the LabelSet and returns its index, and fails with `CapacityExceeded` if
`len(LabelSet) == max_labels` already; it never reallocates storage. -/
def add_label (nn : NeuralNetwork) (name : String) :
    Except ClsError (NeuralNetwork × Nat) :=
  if num_labels nn = nn.max_num_labels then
    Except.error ClsError.CapacityExceeded
  else
    Except.ok ({ nn with labels := nn.labels ++ [name] }, num_labels nn)

/-- A buffered training example: the dense feature vector and the gold label
index. -/
abbrev Example := List Int × Nat

/-- Transient training-schedule state of the classifier: the example buffer,
the two counters set to zero in `NeuralNetwork.__init__` (source lines
80-81), a count of executed training steps, and the current weights (of an
arbitrary type `W`, updated only by the training step). -/
structure TrainState (W : Type) where
  buffer : List Example
  item_index : Nat
  iteration : Nat
  trainSteps : Nat
  weights : W
deriving Repr

/-- Training state of a freshly constructed classifier: empty buffer and both
counters zero (source lines 80-81: `self._item_index = 0`,
`self._iteration = 0`). -/
def initTrainState {W : Type} (w : W) : TrainState W :=
  { buffer := [], item_index := 0, iteration := 0, trainSteps := 0, weights := w }

/-- Modelled from the spec: `observe` is implemented outside the sources (the
base class and concrete subclasses of `NeuralNetwork`); per spec section 4.1
it buffers the example and, when the buffered count reaches `batch_size`,
runs exactly one training step on the buffer (abstracted here as an arbitrary
update function `upd`), clears the buffer and increments `iteration`; below
the threshold it changes no weights. -/
def observe {W : Type} (upd : W → List Example → W) (batch_size : Nat)
    (s : TrainState W) (ex : Example) : TrainState W :=
  let buf := s.buffer ++ [ex]
  if batch_size ≤ buf.length then
    { buffer := []
      item_index := 0
      iteration := s.iteration + 1
      trainSteps := s.trainSteps + 1
      weights := upd s.weights buf }
  else
    { s with buffer := buf, item_index := s.item_index + 1 }

/-- A layer-0 terminal node of a passage, reduced to the two attributes
`break2paragraphs` reads: its global `position` (1-based) and its position
within its paragraph `para_pos` (1-based). -/
structure Terminal where
  position : Nat
  para_pos : Nat
deriving DecidableEq, Repr

/-- Embedding of `break2paragraphs` (src/ucca/textutil.py lines 156-169),
applied to the terminal list of the passage (`extract_terminals` returns the
layer-0 terminals in order).  The list comprehension keeps every terminal
with `position != 1 and para_pos == 1` and maps it to `position - 1`; then
`terminals[-1].position` is appended.  On an empty terminal list the negative
index `terminals[-1]` raises an IndexError, embedded as `none`. -/
def break2paragraphs (terminals : List Terminal) : Option (List Nat) :=
  let paragraph_ends :=
    (terminals.filter (fun t => t.position ≠ 1 ∧ t.para_pos = 1)).map
      (fun t => t.position - 1)
  match terminals.getLast? with
  | none => none
  | some tl => some (paragraph_ends ++ [tl.position])

/-- A small concrete classifier used to instantiate the theorems on explicit
inputs: two labels, capacity three, a materialized parameter store with three
tensors, and the feature schema of the spec example. -/
def nnEx : NeuralNetwork :=
  { model_type := "nn"
    labels := ["shift", "reduce"]
    is_frozen := false
    input_params := [("unigram", ⟨50, 4⟩), ("bigram", ⟨20, 4⟩)]
    params := [("W1", [1, 2]), ("b1", [3]), ("Wout", [4, 5, 6])]
    layers := 1
    layer_dim := 100
    max_num_labels := 3
    batch_size := 10
    item_index := 0
    iteration := 0 }

/-- The same concrete classifier before materialization: its parameter store
is still the empty ordered dict set up by `__init__` (source line 77). -/
def nnEmpty : NeuralNetwork :=
  { nnEx with params := [] }

/-- A concrete metadata artifact with three parameter keys, matching the
corruption scenario of the spec (three keys, weights blob holding fewer
values). -/
def mdEx : Metadata :=
  { type := "nn"
    labels := ["shift", "reduce"]
    is_frozen := true
    input_params := [("unigram", ⟨50, 4⟩)]
    param_keys := ["W1", "b1", "Wout"]
    layers := 1
    layer_dim := 100 }

lemma zip_map_fst_snd_eq {α β : Type} (l : List (α × β)) :
    (l.map Prod.fst).zip (l.map Prod.snd) = l := by
  induction l with
  | nil => rfl
  | cons x xs ih => simpa using ih

/-- C1: for every classifier whose parameter store is materialized (the
ordered dict is nonempty), save writes the metadata and the ordered values,
and loading those artifacts into a classifier expecting the same model type
reproduces the label sequence, the is_frozen flag, the param_keys order and
the weight values exactly (the params association list is identical). -/
theorem save_load_roundtrip (nn nn2 : NeuralNetwork)
    (hmat : nn.params ≠ []) (hty : nn2.model_type = nn.model_type) :
    save nn false =
      ([SaveEvent.writeMetadata (save_metadata nn), SaveEvent.materialize,
        SaveEvent.writeWeights (save_param_values nn)], none) ∧
    load nn2 (save_metadata nn) (Except.ok (save_param_values nn)) =
      ({ nn2 with
          labels := nn.labels
          is_frozen := nn.is_frozen
          input_params := nn.input_params
          layers := nn.layers
          layer_dim := nn.layer_dim
          params := nn.params }, none) := by
  constructor
  · cases hp : nn.params with
    | nil => exact absurd hp hmat
    | cons p ps => simp [save, hp]
  · simp [load, save_metadata, save_param_values, hty]
    exact zip_map_fst_snd_eq nn.params

/-- C1 witness: the round-trip law evaluated on the concrete classifier
`nnEx` loaded back into its unmaterialized twin `nnEmpty`. -/
theorem save_load_roundtrip_witness :
    nnEx.params ≠ [] ∧ nnEmpty.model_type = nnEx.model_type ∧
    (save nnEx false =
      ([SaveEvent.writeMetadata (save_metadata nnEx), SaveEvent.materialize,
        SaveEvent.writeWeights (save_param_values nnEx)], none) ∧
    load nnEmpty (save_metadata nnEx) (Except.ok (save_param_values nnEx)) =
      ({ nnEmpty with
          labels := nnEx.labels
          is_frozen := nnEx.is_frozen
          input_params := nnEx.input_params
          layers := nnEx.layers
          layer_dim := nnEx.layer_dim
          params := nnEx.params }, none)) :=
  ⟨by decide, by decide, save_load_roundtrip nnEx nnEmpty (by decide) (by decide)⟩

/-- C2: evaluation of `load` at the corruption scenario of the spec (three
parameter keys in the metadata, only two tensors in the weights artifact).
The call completes with no error: Python zip at source line 142 silently
pairs the two values with the first two keys and drops the key "Wout", so
the code never raises CorruptModel on a count mismatch. -/
theorem load_count_mismatch_truncates :
    load nnEx mdEx (Except.ok [[10], [20]]) =
      ({ nnEx with
          labels := ["shift", "reduce"]
          is_frozen := true
          input_params := [("unigram", ⟨50, 4⟩)]
          layers := 1
          layer_dim := 100
          params := [("W1", [10]), ("b1", [20])] }, none) := by
  decide

/-- C3: for every classifier whose parameter store is materialized, when the
weights-blob write raises a ValueError after the metadata artifact was
written, `save` still returns normally (error component `none`): the
exception is caught at source line 116 and only printed, so no error is
surfaced to the caller. -/
theorem save_returns_normally_on_weight_write_failure (nn : NeuralNetwork)
    (hmat : nn.params ≠ []) :
    save nn true =
      ([SaveEvent.writeMetadata (save_metadata nn), SaveEvent.materialize], none) := by
  cases hp : nn.params with
  | nil => exact absurd hp hmat
  | cons p ps => simp [save, hp]

/-- C3 witness: the swallowed weight-write failure evaluated on the concrete
classifier `nnEx`. -/
theorem save_returns_normally_on_weight_write_failure_witness :
    nnEx.params ≠ [] ∧
    save nnEx true =
      ([SaveEvent.writeMetadata (save_metadata nnEx), SaveEvent.materialize], none) :=
  ⟨by decide, save_returns_normally_on_weight_write_failure nnEx (by decide)⟩

/-- C4 counterexample: on the concrete classifier `nnEmpty`, whose parameter
store was never materialized, `save` does not succeed: it raises the
ValueError of the empty unpack at source line 98 and performs no effect at
all (in particular it never materializes the store).  Moreover, on the
materialized classifier `nnEx`, the materialize step is the second effect,
after the metadata artifact is written, not the first.  Both facts refute
the claim as stated. -/
theorem save_not_materialize_first :
    save nnEmpty false = ([], some ClsError.UnpackEmptyParams) ∧
    (save nnEx false).1 =
      [SaveEvent.writeMetadata (save_metadata nnEx), SaveEvent.materialize,
       SaveEvent.writeWeights (save_param_values nnEx)] := by
  decide

/-- C4 (amended): save reads the parameter keys and values out of the store
first and fails with the empty-unpack ValueError on any classifier whose
store was never materialized; on a materialized classifier the metadata
artifact (with the param_keys list) is written first and the store is
materialized only afterwards, before the weights artifact is written. -/
theorem save_metadata_then_materialize (nn : NeuralNetwork) (b : Bool)
    (hmat : nn.params ≠ []) :
    (save nn b).1.take 2 =
      [SaveEvent.writeMetadata (save_metadata nn), SaveEvent.materialize] ∧
    (save nn b).2 = none ∧
    (∀ m : NeuralNetwork, m.params = [] →
      save m b = ([], some ClsError.UnpackEmptyParams)) := by
  refine ⟨?_, ?_, ?_⟩
  · cases hp : nn.params with
    | nil => exact absurd hp hmat
    | cons p ps => cases b <;> simp [save, hp]
  · cases hp : nn.params with
    | nil => exact absurd hp hmat
    | cons p ps => cases b <;> simp [save, hp]
  · intro m hm
    simp [save, hm]

/-- C4 witness: the amended statement evaluated on the concrete classifier
`nnEx` with a succeeding weight write. -/
theorem save_metadata_then_materialize_witness :
    nnEx.params ≠ [] ∧
    ((save nnEx false).1.take 2 =
      [SaveEvent.writeMetadata (save_metadata nnEx), SaveEvent.materialize] ∧
    (save nnEx false).2 = none ∧
    (∀ m : NeuralNetwork, m.params = [] →
      save m false = ([], some ClsError.UnpackEmptyParams))) :=
  ⟨by decide, save_metadata_then_materialize nnEx false (by decide)⟩

/-- C5: capacity invariant for label growth.  From a classifier holding one
label fewer than the capacity, `add_label` succeeds exactly once more: the
successful call fills the set to exactly `max_num_labels` (and the resize
assertion of source line 91 still passes there), the very next call on the
result fails with CapacityExceeded, every call made at full capacity fails
with CapacityExceeded, and any successful call preserves the invariant
`num_labels ≤ max_num_labels`. -/
theorem add_label_capacity (nn : NeuralNetwork) (name name2 : String)
    (hlen : num_labels nn + 1 = nn.max_num_labels) :
    ∃ nn2 : NeuralNetwork,
      add_label nn name = Except.ok (nn2, num_labels nn) ∧
      num_labels nn2 = nn.max_num_labels ∧
      resize nn2 = some () ∧
      add_label nn2 name2 = Except.error ClsError.CapacityExceeded ∧
      (∀ m : NeuralNetwork, num_labels m = m.max_num_labels →
        ∀ s, add_label m s = Except.error ClsError.CapacityExceeded) ∧
      (∀ m m2 : NeuralNetwork, ∀ s i, num_labels m ≤ m.max_num_labels →
        add_label m s = Except.ok (m2, i) →
        num_labels m2 ≤ m2.max_num_labels) := by
  have hne : num_labels nn ≠ nn.max_num_labels := by omega
  refine ⟨{ nn with labels := nn.labels ++ [name] }, ?_, ?_, ?_, ?_, ?_, ?_⟩
  · simp [add_label, hne]
  · simp [num_labels] at hlen ⊢
    omega
  · have : num_labels { nn with labels := nn.labels ++ [name] } =
        nn.max_num_labels := by
      simp [num_labels] at hlen ⊢
      omega
    simp [resize, this]
  · have : num_labels { nn with labels := nn.labels ++ [name] } =
        nn.max_num_labels := by
      simp [num_labels] at hlen ⊢
      omega
    simp [add_label, this]
  · intro m hm s
    simp [add_label, hm]
  · intro m m2 s i hm hok
    by_cases hfull : num_labels m = m.max_num_labels
    · simp [add_label, hfull] at hok
    · simp [add_label, hfull] at hok
      obtain ⟨hm2, hi⟩ := hok
      subst hm2
      simp [num_labels] at hm hfull ⊢
      omega

/-- C5 witness: on the concrete classifier `nnEx` (two labels, capacity
three) the capacity behaviour evaluated explicitly. -/
theorem add_label_capacity_witness :
    num_labels nnEx + 1 = nnEx.max_num_labels ∧
    (∃ nn2 : NeuralNetwork,
      add_label nnEx "finish" = Except.ok (nn2, num_labels nnEx) ∧
      num_labels nn2 = nnEx.max_num_labels ∧
      resize nn2 = some () ∧
      add_label nn2 "extra" = Except.error ClsError.CapacityExceeded ∧
      (∀ m : NeuralNetwork, num_labels m = m.max_num_labels →
        ∀ s, add_label m s = Except.error ClsError.CapacityExceeded) ∧
      (∀ m m2 : NeuralNetwork, ∀ s i, num_labels m ≤ m.max_num_labels →
        add_label m s = Except.ok (m2, i) →
        num_labels m2 ≤ m2.max_num_labels)) :=
  ⟨by decide, add_label_capacity nnEx "finish" "extra" (by decide)⟩

/-- C6: whenever the type field stored in the metadata differs from the
expected model type, `load` fails with ModelTypeMismatch and leaves the
classifier untouched, and its outcome does not depend on the weights
artifact at all (the assertion at source line 126 fires before the weights
are ever read). -/
theorem load_type_mismatch (nn : NeuralNetwork) (d : Metadata)
    (w w2 : Except Unit (List Tensor)) (h : d.type ≠ nn.model_type) :
    load nn d w = (nn, some ClsError.ModelTypeMismatch) ∧
    load nn d w = load nn d w2 := by
  constructor
  · simp [load, h]
  · simp [load, h]

/-- C6 witness: loading metadata typed "perceptron" into the concrete
classifier `nnEx` (expected type "nn"), once with a valid weights artifact
and once with a failing one. -/
theorem load_type_mismatch_witness :
    ({ mdEx with type := "perceptron" } : Metadata).type ≠ nnEx.model_type ∧
    (load nnEx { mdEx with type := "perceptron" } (Except.ok [[10], [20], [30]]) =
      (nnEx, some ClsError.ModelTypeMismatch) ∧
    load nnEx { mdEx with type := "perceptron" } (Except.ok [[10], [20], [30]]) =
      load nnEx { mdEx with type := "perceptron" } (Except.error ())) :=
  ⟨by decide,
   load_type_mismatch nnEx { mdEx with type := "perceptron" }
     (Except.ok [[10], [20], [30]]) (Except.error ()) (by decide)⟩

/-- C8: with `batch_size = 10`, starting from a freshly constructed
classifier (both counters zero), the first nine `observe` calls execute zero
training steps and leave the weights unchanged, and the tenth call executes
exactly one training step, clears the example buffer, and increments
`iteration` from 0 to 1 — for every update function and every sequence of
examples. -/
theorem observe_batch_schedule {W : Type} (upd : W → List Example → W) (w : W)
    (e1 e2 e3 e4 e5 e6 e7 e8 e9 e10 : Example) :
    (observe upd 10 (observe upd 10 (observe upd 10 (observe upd 10
      (observe upd 10 (observe upd 10 (observe upd 10 (observe upd 10
        (observe upd 10 (initTrainState w) e1) e2) e3) e4) e5) e6) e7) e8)
          e9).trainSteps = 0 ∧
    (observe upd 10 (observe upd 10 (observe upd 10 (observe upd 10
      (observe upd 10 (observe upd 10 (observe upd 10 (observe upd 10
        (observe upd 10 (initTrainState w) e1) e2) e3) e4) e5) e6) e7) e8)
          e9).weights = w ∧
    (observe upd 10 (observe upd 10 (observe upd 10 (observe upd 10
      (observe upd 10 (observe upd 10 (observe upd 10 (observe upd 10
        (observe upd 10 (initTrainState w) e1) e2) e3) e4) e5) e6) e7) e8)
          e9).iteration = 0 ∧
    (observe upd 10 (observe upd 10 (observe upd 10 (observe upd 10
      (observe upd 10 (observe upd 10 (observe upd 10 (observe upd 10
        (observe upd 10 (observe upd 10 (initTrainState w) e1) e2) e3) e4)
          e5) e6) e7) e8) e9) e10).trainSteps = 1 ∧
    (observe upd 10 (observe upd 10 (observe upd 10 (observe upd 10
      (observe upd 10 (observe upd 10 (observe upd 10 (observe upd 10
        (observe upd 10 (observe upd 10 (initTrainState w) e1) e2) e3) e4)
          e5) e6) e7) e8) e9) e10).buffer = [] ∧
    (observe upd 10 (observe upd 10 (observe upd 10 (observe upd 10
      (observe upd 10 (observe upd 10 (observe upd 10 (observe upd 10
        (observe upd 10 (observe upd 10 (initTrainState w) e1) e2) e3) e4)
          e5) e6) e7) e8) e9) e10).iteration = 1 := by
  simp [observe, initTrainState]

/-- C9: when the stored type matches but reading the weights artifact fails
(`self.model.load` raises the KeyError swallowed at source line 140), `load`
still fails — `param_values` is unbound, so line 142 raises — yet by then
`labels`, `is_frozen`, `_input_params`, `_layers` and `_layer_dim` have
already been overwritten from the metadata while `_params` still holds the
old weights: a failed load leaves the classifier in a mixed state. -/
theorem load_mixed_state_on_read_failure (nn : NeuralNetwork) (d : Metadata)
    (h : d.type = nn.model_type) :
    (load nn d (Except.error ())).2 = some ClsError.UnboundParamValues ∧
    (load nn d (Except.error ())).1.labels = d.labels ∧
    (load nn d (Except.error ())).1.is_frozen = d.is_frozen ∧
    (load nn d (Except.error ())).1.input_params = d.input_params ∧
    (load nn d (Except.error ())).1.layers = d.layers ∧
    (load nn d (Except.error ())).1.layer_dim = d.layer_dim ∧
    (load nn d (Except.error ())).1.params = nn.params := by
  simp [load, h]

/-- C9 witness: the mixed state evaluated on the concrete classifier `nnEx`
and the matching metadata `mdEx` with a failing weights read. -/
theorem load_mixed_state_on_read_failure_witness :
    mdEx.type = nnEx.model_type ∧
    ((load nnEx mdEx (Except.error ())).2 = some ClsError.UnboundParamValues ∧
    (load nnEx mdEx (Except.error ())).1.labels = mdEx.labels ∧
    (load nnEx mdEx (Except.error ())).1.is_frozen = mdEx.is_frozen ∧
    (load nnEx mdEx (Except.error ())).1.input_params = mdEx.input_params ∧
    (load nnEx mdEx (Except.error ())).1.layers = mdEx.layers ∧
    (load nnEx mdEx (Except.error ())).1.layer_dim = mdEx.layer_dim ∧
    (load nnEx mdEx (Except.error ())).1.params = nnEx.params) :=
  ⟨by decide, load_mixed_state_on_read_failure nnEx mdEx (by decide)⟩

/-- C10: on every passage whose layer-0 terminal list is nonempty,
`break2paragraphs` returns a list whose last element is the position of the
final terminal (so the result is nonempty), while on a passage with zero
terminals the unguarded negative index `terminals[-1]` makes the call fail
instead of returning an empty list. -/
theorem break2paragraphs_last_position (terminals : List Terminal)
    (h : terminals ≠ []) :
    (∃ l tl, break2paragraphs terminals = some l ∧ l ≠ [] ∧
      terminals.getLast? = some tl ∧ l.getLast? = some tl.position) ∧
    break2paragraphs [] = none := by
  constructor
  · refine ⟨(terminals.filter (fun t => t.position ≠ 1 ∧ t.para_pos = 1)).map
        (fun t => t.position - 1) ++ [(terminals.getLast h).position],
      terminals.getLast h, ?_, ?_, ?_, ?_⟩
    · simp [break2paragraphs, List.getLast?_eq_getLast terminals h]
    · simp
    · exact List.getLast?_eq_getLast terminals h
    · simp
  · rfl

/-- C10 witness: a concrete two-paragraph passage with four terminals; the
returned list ends with the final terminal position 4. -/
theorem break2paragraphs_last_position_witness :
    ([⟨1, 1⟩, ⟨2, 2⟩, ⟨3, 1⟩, ⟨4, 2⟩] : List Terminal) ≠ [] ∧
    ((∃ l tl,
      break2paragraphs [⟨1, 1⟩, ⟨2, 2⟩, ⟨3, 1⟩, ⟨4, 2⟩] = some l ∧ l ≠ [] ∧
      ([⟨1, 1⟩, ⟨2, 2⟩, ⟨3, 1⟩, ⟨4, 2⟩] : List Terminal).getLast? = some tl ∧
      l.getLast? = some tl.position) ∧
    break2paragraphs [] = none) :=
  ⟨by decide,
   break2paragraphs_last_position [⟨1, 1⟩, ⟨2, 2⟩, ⟨3, 1⟩, ⟨4, 2⟩] (by decide)⟩
